import Mathlib

/-!
Shallow embedding of `data_fetcher.py` from the wagasdashboard repository.

Tabular data (pandas DataFrames) is modelled as a list of column names
together with a list of rows; each row is an association list from column
name to cell value.  Cell values cover the kinds of scalars the pipeline
manipulates: strings, (integer-valued) numeric quantities, parsed gas-day
dates, and the null value (pandas NaN/NaT).  Quantities are embedded as
integers: the pipeline only copies, sums and subtracts them, so the real
arithmetic is faithfully represented on the integer subdomain.

Python's in-place DataFrame mutation is made explicit: a cleaning function
that can mutate its caller's frame returns a pair (state of the input frame
after the call, result frame).
-/

namespace Wagas

/-- A scalar cell of a DataFrame: string, numeric quantity (TJ), parsed
gas-day date, or null (pandas NaN / NaT). -/
inductive Cell where
  | str  : String → Cell
  | num  : Int → Cell
  | date : Int → Cell
  | null : Cell
deriving DecidableEq, Repr

/-- A DataFrame row: association list from column name to cell value. -/
abbrev Row := List (String × Cell)

/-- A DataFrame: header (column names) plus rows keyed by column name. -/
structure RawDF where
  columns : List String
  rows : List Row
deriving DecidableEq, Repr

/-- Column access `row[c]`; a missing key reads as null. -/
def getCol (r : Row) (c : String) : Cell :=
  match r.find? (fun p => p.1 == c) with
  | some p => p.2
  | none => Cell.null

/-- In-place column assignment `row[c] = v` (replaces the existing entry). -/
def setCol (r : Row) (c : String) (v : Cell) : Row :=
  r.map (fun p => if p.1 == c then (p.1, v) else p)

/-- `required_cols.issubset(set(df.columns))` from the source. -/
def hasCols (df : RawDF) (req : List String) : Bool :=
  req.all (fun c => df.columns.contains c)

/-- Column projection `df[[c1, ..., cn]]`. -/
def projectRow (cols : List String) (r : Row) : Row :=
  cols.map (fun c => (c, getCol r c))

/-- Rename a single column name through a rename mapping. -/
def renameKey (m : List (String × String)) (c : String) : String :=
  match m.find? (fun p => p.1 == c) with
  | some p => p.2
  | none => c

/-- `df.rename(columns=m)`: renames the header and the row keys. -/
def renameDF (df : RawDF) (m : List (String × String)) : RawDF :=
  ⟨df.columns.map (renameKey m),
   df.rows.map (fun r => r.map (fun p => (renameKey m p.1, p.2)))⟩

/-- `df.columns.str.lower()` from `fetch_csv`: lower-cases the header and
the row keys so downstream access is case-uniform. -/
def lowerDF (df : RawDF) : RawDF :=
  ⟨df.columns.map (fun c => c.toLower),
   df.rows.map (fun r => r.map (fun p => (p.1.toLower, p.2)))⟩

/-- Decimal digit value of a character, if it is a digit. -/
def digitVal (ch : Char) : Option Nat :=
  if ch.isDigit then some (ch.toNat - 48) else none

/-- Parse a non-empty all-digit character list as a natural number. -/
def parseNatChars (l : List Char) : Option Nat :=
  if l.isEmpty then none
  else l.foldl
    (fun acc ch =>
      match acc, digitVal ch with
      | some a, some d => some (a * 10 + d)
      | _, _ => none)
    (some 0)

/-- Split a character list on the dash character. -/
def splitDash : List Char → List (List Char)
  | [] => [[]]
  | ch :: rest =>
    let r := splitDash rest
    if ch == '-' then [] :: r
    else
      match r with
      | [] => [[ch]]
      | h :: t => (ch :: h) :: t

/-- Parse an ISO `YYYY-MM-DD` date string into the ordered integer code
y*10000 + m*100 + d; other strings fail to parse. -/
def parseDateStr (s : String) : Option Int :=
  match splitDash s.toList with
  | [y, m, d] =>
    match parseNatChars y, parseNatChars m, parseNatChars d with
    | some yn, some mn, some dn =>
      if 1 ≤ mn && mn ≤ 12 && 1 ≤ dn && dn ≤ 31 then
        some (Int.ofNat (yn * 10000 + mn * 100 + dn))
      else none
    | _, _, _ => none
  | _ => none

/-- `pd.to_datetime(cell, errors="coerce")` on one cell: dates pass
through, date strings parse (unparseable ones coerce to NaT = null),
numbers are read on an epoch scale, null stays null. -/
def to_datetime (c : Cell) : Cell :=
  match c with
  | Cell.date d => Cell.date d
  | Cell.str s =>
    match parseDateStr s with
    | some d => Cell.date d
    | none => Cell.null
  | Cell.num n => Cell.date n
  | Cell.null => Cell.null

/-- Canonical output columns of `clean_nameplate`. -/
def nameplateOutCols : List String := ["FacilityName", "TJ_Nameplate"]

/-- Required raw columns of `clean_nameplate` (source line 86). -/
def nameplateReqCols : List String := ["facilityname", "facilitytype", "nameplaterating"]

/-- `clean_nameplate` (source lines 79-93).  Returns (state of the input
frame after the call, cleaned frame).  The source copies before mutating,
so the input frame is returned unchanged.  Rows are kept by the exact
comparison `df["facilitytype"] == "production"`, then projected to
facility name and rating and renamed to the canonical schema. -/
def clean_nameplate (df : RawDF) : RawDF × RawDF :=
  if hasCols df nameplateReqCols then
    let prod := df.rows.filter (fun r => getCol r "facilitytype" == Cell.str "production")
    let proj : RawDF := ⟨["facilityname", "nameplaterating"],
      prod.map (projectRow ["facilityname", "nameplaterating"])⟩
    (df, renameDF proj [("facilityname", "FacilityName"), ("nameplaterating", "TJ_Nameplate")])
  else
    (df, ⟨nameplateOutCols, []⟩)

/-- Canonical output columns of `clean_mto`. -/
def mtoOutCols : List String := ["FacilityName", "GasDay", "TJ_Available"]

/-- Required raw columns of `clean_mto` (source line 102). -/
def mtoReqCols : List String := ["facilityname", "facilitytype", "gasday", "capacity"]

/-- `clean_mto` (source lines 95-112).  Returns (state of the input frame
after the call, cleaned frame).  The source executes
`df["gasday"] = pd.to_datetime(df["gasday"], errors="coerce")` BEFORE
taking a copy, so the caller's frame comes back with its gasday column
overwritten whenever the required columns are present.  Production rows
are kept by exact comparison, projected, stripped of unparseable gas days
(`dropna(subset=["gasday"])`) and renamed. -/
def clean_mto (df : RawDF) : RawDF × RawDF :=
  if hasCols df mtoReqCols then
    let dfm : RawDF := ⟨df.columns,
      df.rows.map (fun r => setCol r "gasday" (to_datetime (getCol r "gasday")))⟩
    let prod := dfm.rows.filter (fun r => getCol r "facilitytype" == Cell.str "production")
    let proj := prod.map (projectRow ["facilityname", "gasday", "capacity"])
    let kept := proj.filter (fun r => !(getCol r "gasday" == Cell.null))
    (dfm, renameDF ⟨["facilityname", "gasday", "capacity"], kept⟩
      [("facilityname", "FacilityName"), ("gasday", "GasDay"), ("capacity", "TJ_Available")])
  else
    (df, ⟨mtoOutCols, []⟩)

/-- Numeric reading of a cell (`none` for NaN / non-numeric). -/
def cellNum (c : Cell) : Option Int :=
  match c with
  | Cell.num n => some n
  | _ => none

/-- Column sum with pandas `sum()` semantics: null (NaN) entries are
skipped, an all-null column sums to 0. -/
def sumCol (rows : List Row) (col : String) : Int :=
  rows.foldr (fun r acc => (cellNum (getCol r col)).getD 0 + acc) 0

/-- Sort key used to order group keys the way pandas orders gas days. -/
def cellDateVal (c : Cell) : Int :=
  match c with
  | Cell.date d => d
  | Cell.num n => n
  | _ => 0

/-- The distinct non-null key values of a column, in ascending key order:
pandas `groupby` drops null keys and sorts the group keys. -/
def groupKeys (rows : List Row) (keycol : String) : List Cell :=
  List.insertionSort (fun a b => cellDateVal a ≤ cellDateVal b)
    ((rows.map (fun r => getCol r keycol)).filter (fun c => !(c == Cell.null))).dedup

/-- `df.groupby(keycol)[valcol].sum().reset_index()`: one row per distinct
non-null key, carrying the skip-null sum of `valcol` over that group. -/
def groupbySum (rows : List Row) (keycol valcol : String) : List Row :=
  (groupKeys rows keycol).map (fun k =>
    [(keycol, k),
     (valcol, Cell.num (sumCol (rows.filter (fun r => getCol r keycol == k)) valcol))])

/-- `left.merge(right, on=key, how="left")`: every left row appears, paired
with each right row whose key cell matches; a left row with no match is
padded with nulls in the right-only columns. -/
def mergeLeft (left right : RawDF) (key : String) : RawDF :=
  ⟨left.columns ++ right.columns.filter (fun c => !(c == key)),
   left.rows.flatMap (fun lr =>
     let ms := right.rows.filter (fun rr => getCol rr key == getCol lr key)
     if ms.isEmpty then
       [lr ++ (right.columns.filter (fun c => !(c == key))).map (fun c => (c, Cell.null))]
     else
       ms.map (fun rr => lr ++ rr.filter (fun p => !(p.1 == key))))⟩

/-- `df[dst] = df[dst].fillna(df[src])` applied row-wise. -/
def fillnaFrom (df : RawDF) (dst src : String) : RawDF :=
  ⟨df.columns,
   df.rows.map (fun r =>
     if getCol r dst == Cell.null then setCol r dst (getCol r src) else r)⟩

/-- Canonical output columns of `build_supply_profile`. -/
def supplyOutCols : List String := ["FacilityName", "GasDay", "TJ_Available", "TJ_Nameplate"]

/-- `build_supply_profile` (source lines 114-128), parameterised on the two
raw frames that `fetch_csv` would deliver.  Cleans both inputs, degrades to
an empty typed frame when either cleaned side is empty, and otherwise
left-joins outlook to nameplate on facility name and fills null available
capacity from the nameplate rating. -/
def build_supply_profile (nameplateRaw mtoRaw : RawDF) : RawDF :=
  let nameplate := (clean_nameplate nameplateRaw).2
  let mto := (clean_mto mtoRaw).2
  if nameplate.rows.isEmpty || mto.rows.isEmpty then
    ⟨supplyOutCols, []⟩
  else
    fillnaFrom (mergeLeft mto nameplate "FacilityName") "TJ_Available" "TJ_Nameplate"

/-- Canonical output columns of `build_demand_profile`. -/
def demandOutCols : List String := ["GasDay", "TJ_Demand"]

/-- Required raw columns of `build_demand_profile` (source line 137). -/
def flowsReqCols : List String := ["gasday", "zonetype", "zonename", "quantity"]

/-- The `demand_zone` intermediate of `build_demand_profile` (source lines
141-143): gas days coerced in place, then rows kept by the exact
comparisons `zonetype == "demand"` and `zonename == "whole wa"`. -/
def demand_zone (flowsRaw : RawDF) : List Row :=
  (flowsRaw.rows.map (fun r => setCol r "gasday" (to_datetime (getCol r "gasday")))).filter
    (fun r =>
      getCol r "zonetype" == Cell.str "demand" && getCol r "zonename" == Cell.str "whole wa")

/-- `build_demand_profile` (source lines 130-147), parameterised on the raw
flows frame.  Coerces gas days, keeps rows with zone type exactly "demand"
and zone name exactly "whole wa", sums quantity per gas day, renames to the
canonical schema and drops null gas days (a no-op after the groupby). -/
def build_demand_profile (flowsRaw : RawDF) : RawDF :=
  if hasCols flowsRaw flowsReqCols then
    let demand := renameDF ⟨["gasday", "quantity"], groupbySum (demand_zone flowsRaw) "gasday" "quantity"⟩
      [("gasday", "GasDay"), ("quantity", "TJ_Demand")]
    ⟨demand.columns, demand.rows.filter (fun r => !(getCol r "GasDay" == Cell.null))⟩
  else
    ⟨demandOutCols, []⟩

/-- Pandas subtraction of two cells: NaN propagates. -/
def cellSub (a b : Cell) : Cell :=
  match a, b with
  | Cell.num x, Cell.num y => Cell.num (x - y)
  | _, _ => Cell.null

/-- `get_model` (source lines 149-163), parameterised on the three raw
frames.  When either profile is empty it returns the pair of profiles
unchanged; otherwise it sums available supply per gas day, left-joins the
demand profile (driving side) to that total-supply series, and appends
`Shortfall = TJ_Available - TJ_Demand` with null propagation. -/
def get_model (nameplateRaw mtoRaw flowsRaw : RawDF) : RawDF × RawDF :=
  let sup := build_supply_profile nameplateRaw mtoRaw
  let dem := build_demand_profile flowsRaw
  if sup.rows.isEmpty || dem.rows.isEmpty then
    (sup, dem)
  else
    let total_supply : RawDF := ⟨["GasDay", "TJ_Available"], groupbySum sup.rows "GasDay" "TJ_Available"⟩
    let model := mergeLeft dem total_supply "GasDay"
    (sup,
     ⟨model.columns ++ ["Shortfall"],
      model.rows.map (fun r =>
        r ++ [("Shortfall", cellSub (getCol r "TJ_Available") (getCol r "TJ_Demand"))])⟩)

/-! ## Fetcher -/

/-- A cached artifact: file content plus modification time (seconds). -/
structure CacheEntry where
  content : String
  mtime : Int
deriving DecidableEq, Repr

/-- The local cache directory, keyed by file name. -/
abbrev Cache := List (String × CacheEntry)

/-- Look a file up in the cache (`os.path.exists` / open). -/
def lookupCache (c : Cache) (f : String) : Option CacheEntry :=
  match c.find? (fun p => p.1 == f) with
  | some p => some p.2
  | none => none

/-- Write a file into the cache, overwriting an existing entry. -/
def writeCache (c : Cache) (f : String) (e : CacheEntry) : Cache :=
  if (c.find? (fun p => p.1 == f)).isSome then
    c.map (fun p => if p.1 == f then (f, e) else p)
  else
    c ++ [(f, e)]

/-- The `FILES` dict of the source: dataset key to CSV file name. -/
def FILES : List (String × String) :=
  [("flows", "GasBBActualFlowStorageLast31.CSV"),
   ("mto_future", "GasBBMediumTermCapacityOutlookFuture.csv"),
   ("nameplate", "GasBBNameplateRatingCurrent.csv")]

/-- `FILES[key]` as a total lookup; `none` models the KeyError. -/
def lookupKey (k : String) : Option String :=
  match FILES.find? (fun p => p.1 == k) with
  | some p => some p.2
  | none => none

/-- `CACHE_DIR` from the source. -/
def CACHE_DIR : String := "data_cache"

/-- `os.path.join(CACHE_DIR, fname)`. -/
def pathFor (f : String) : String := CACHE_DIR ++ "/" ++ f

/-- An HTTP response as seen by `_download`: status code and body text. -/
structure HttpResponse where
  status : Nat
  content : String
deriving DecidableEq, Repr

/-- `_download` (source lines 20-37) as a cache transformer.  After
`raise_for_status` (an error status raises and nothing is written), the
payload is written to the cache file unconditionally — the body content is
never inspected — and the local path is returned.  `none` in the second
component models the re-raised exception. -/
def download (cache : Cache) (now : Int) (fname : String) (resp : HttpResponse) :
    Cache × Option String :=
  if 400 ≤ resp.status then
    (cache, none)
  else
    (writeCache cache fname ⟨resp.content, now⟩, some (pathFor fname))

/-- `_stale` (source lines 39-49): true when the file is absent or when
`(utcnow() - mtime).days > 0`; Python's floor `timedelta.days` over a
positive divisor coincides with Lean's integer division. -/
def stale (cache : Cache) (now : Int) (fname : String) : Bool :=
  match lookupCache cache fname with
  | none => true
  | some e => (now - e.mtime) / 86400 > 0

/-- The typed empty fallback frames of `fetch_csv` (source lines 70-77). -/
def emptyFallback (key : String) : RawDF :=
  if key == "nameplate" then ⟨["facilityname", "facilitytype", "nameplaterating"], []⟩
  else if key == "mto_future" then ⟨["facilityname", "facilitytype", "gasday", "capacity"], []⟩
  else if key == "flows" then ⟨["gasday", "zonetype", "zonename", "quantity"], []⟩
  else ⟨[], []⟩

/-- Result of one `fetch_csv` call: the cache state after the call, the
returned frame, and whether the download path was taken. -/
structure FetchResult where
  cache : Cache
  df : RawDF
  usedDownload : Bool
deriving DecidableEq, Repr

/-- `fetch_csv` (source lines 51-77).  `net` models `requests.get`
(`none` = network exception) and `parse` models `pd.read_csv`
(`none` = parse exception).  Every exception is caught by the blanket
`except` and degrades to the typed empty frame for the key; an unknown key
hits the KeyError branch and yields a column-less empty frame.  On the
non-download path the cached content is parsed; on the download path the
freshly written content is parsed.  Column names are lower-cased on every
successful parse. -/
def fetch_csv (net : String → Option HttpResponse) (parse : String → Option RawDF)
    (cache : Cache) (now : Int) (key : String) (force : Bool) : FetchResult :=
  match lookupKey key with
  | none => ⟨cache, emptyFallback key, false⟩
  | some fname =>
    if force || stale cache now fname then
      match net fname with
      | none => ⟨cache, emptyFallback key, true⟩
      | some resp =>
        match download cache now fname resp with
        | (c2, none) => ⟨c2, emptyFallback key, true⟩
        | (c2, some _) =>
          match lookupCache c2 fname with
          | none => ⟨c2, emptyFallback key, true⟩
          | some e =>
            match parse e.content with
            | none => ⟨c2, emptyFallback key, true⟩
            | some df => ⟨c2, lowerDF df, true⟩
    else
      match lookupCache cache fname with
      | none => ⟨cache, emptyFallback key, false⟩
      | some e =>
        match parse e.content with
        | none => ⟨cache, emptyFallback key, false⟩
        | some df => ⟨cache, lowerDF df, false⟩

/-- Tests whether the first list starts with the second. -/
def charsStart : List Char → List Char → Bool
  | _, [] => true
  | [], _ :: _ => false
  | a :: as, b :: bs => a == b && charsStart as bs

/-- Spec-modelled HTML content sniff (the source has no such check): the
spec rejects a payload whose body starts with an HTML document marker. -/
def isHtmlPayload (s : String) : Bool :=
  charsStart s.toList "<html".toList
    || charsStart s.toList "<!DOCTYPE".toList
    || charsStart s.toList "<HTML".toList

/-- Lower-case one ASCII character. -/
def lowerChar (c : Char) : Char :=
  if c.isUpper then Char.ofNat (c.toNat + 32) else c

/-- Spec-modelled case-insensitive string comparison: the spec's filters
are described as matching "in any letter case". -/
def strCaseEq (s t : String) : Bool :=
  s.toList.map lowerChar == t.toList.map lowerChar

/-! ## Concrete frames used as test inputs and counterexample material -/

/-- A nameplate frame with a single production facility F rated v TJ/day. -/
def npSingle (v : Int) : RawDF :=
  ⟨["facilityname", "facilitytype", "nameplaterating"],
   [[("facilityname", Cell.str "F"), ("facilitytype", Cell.str "production"),
     ("nameplaterating", Cell.num v)]]⟩

/-- An outlook frame with one production row for F on day d and null
available capacity. -/
def mtoNullCap (d : Int) : RawDF :=
  ⟨["facilityname", "facilitytype", "gasday", "capacity"],
   [[("facilityname", Cell.str "F"), ("facilitytype", Cell.str "production"),
     ("gasday", Cell.date d), ("capacity", Cell.null)]]⟩

/-- A nameplate frame listing facility F twice (ratings 50 and 60). -/
def npDup : RawDF :=
  ⟨["facilityname", "facilitytype", "nameplaterating"],
   [[("facilityname", Cell.str "F"), ("facilitytype", Cell.str "production"),
     ("nameplaterating", Cell.num 50)],
    [("facilityname", Cell.str "F"), ("facilitytype", Cell.str "production"),
     ("nameplaterating", Cell.num 60)]]⟩

/-- An outlook frame with one production row for F with capacity 40. -/
def mtoF40 : RawDF :=
  ⟨["facilityname", "facilitytype", "gasday", "capacity"],
   [[("facilityname", Cell.str "F"), ("facilitytype", Cell.str "production"),
     ("gasday", Cell.date 20240101), ("capacity", Cell.num 40)]]⟩

/-- A flows frame with one whole-wa demand row of 30 TJ on 2024-01-01. -/
def flOne : RawDF :=
  ⟨["gasday", "zonetype", "zonename", "quantity"],
   [[("gasday", Cell.date 20240101), ("zonetype", Cell.str "demand"),
     ("zonename", Cell.str "whole wa"), ("quantity", Cell.num 30)]]⟩

/-- A nameplate frame missing its required columns. -/
def npMissing : RawDF := ⟨["facilityname"], []⟩

/-- An outlook frame whose gasday column holds a date string, so the
in-place datetime coercion visibly rewrites the caller's frame. -/
def mtoStrDay : RawDF :=
  ⟨["facilityname", "facilitytype", "gasday", "capacity"],
   [[("facilityname", Cell.str "F"), ("facilitytype", Cell.str "production"),
     ("gasday", Cell.str "2024-01-07"), ("capacity", Cell.num 40)]]⟩

/-- A nameplate frame whose only row has facility type "Production"
(capital P). -/
def npCaps : RawDF :=
  ⟨["facilityname", "facilitytype", "nameplaterating"],
   [[("facilityname", Cell.str "F"), ("facilitytype", Cell.str "Production"),
     ("nameplaterating", Cell.num 50)]]⟩

/-- A flows frame whose only row has zone labels in mixed case. -/
def flCaps : RawDF :=
  ⟨["gasday", "zonetype", "zonename", "quantity"],
   [[("gasday", Cell.date 20240101), ("zonetype", Cell.str "Demand"),
     ("zonename", Cell.str "Whole WA"), ("quantity", Cell.num 30)]]⟩

/-- A network that always fails (models a raised request exception). -/
def netDown : String → Option HttpResponse := fun _ => none

/-- A parser that always fails (models a read_csv exception). -/
def parseFail : String → Option RawDF := fun _ => none

/-- A network returning a fixed small CSV body. -/
def netOk : String → Option HttpResponse := fun _ => some ⟨200, "fresh"⟩

/-- A parser returning a fixed one-column frame. -/
def parseConst : String → Option RawDF := fun _ => some ⟨["GasDay"], []⟩

/-- A cache holding a freshly retrieved flows file (mtime 0). -/
def cacheFlows : Cache := [("GasBBActualFlowStorageLast31.CSV", ⟨"cached", 0⟩)]

/-! ## Helper lemmas about the table primitives -/

theorem getCol_cons (k : String) (v : Cell) (t : Row) (c : String) :
    getCol ((k, v) :: t) c = if k == c then v else getCol t c := by
  by_cases h : (k == c) = true
  · simp [getCol, List.find?_cons_of_pos, h]
  · simp only [getCol, List.find?_cons_of_neg, h]
    simp [h]

theorem setCol_cons (k : String) (v : Cell) (t : Row) (c : String) (w : Cell) :
    setCol ((k, v) :: t) c w = (if k == c then (k, w) else (k, v)) :: setCol t c w := by
  simp only [setCol, List.map_cons]

/-- Reading a column other than the one just assigned is unaffected. -/
theorem getCol_setCol_ne (r : Row) (c c2 : String) (v : Cell) (h : c ≠ c2) :
    getCol (setCol r c v) c2 = getCol r c2 := by
  induction r with
  | nil => rfl
  | cons p t ih =>
    obtain ⟨k, w⟩ := p
    rw [setCol_cons]
    by_cases hk : (k == c) = true
    · have hkc : k = c := by simpa using hk
      have hne : (k == c2) = false := by
        subst hkc; simpa using h
      simp [hk, getCol_cons, hne, ih]
    · simp [hk, getCol_cons, ih]

/-- Assigning `f` of a column back into that column reads back as `f` of
the old value, for any `f` preserving null (covers rows lacking the key,
where both sides read null). -/
theorem getCol_setCol_fun (r : Row) (c : String) (f : Cell → Cell)
    (hf : f Cell.null = Cell.null) :
    getCol (setCol r c (f (getCol r c))) c = f (getCol r c) := by
  induction r with
  | nil => simpa [getCol, setCol] using hf.symm
  | cons p t ih =>
    obtain ⟨k, w⟩ := p
    by_cases hk : (k == c) = true
    · rw [setCol_cons]
      simp [hk, getCol_cons]
    · have h1 : getCol ((k, w) :: t) c = getCol t c := by
        simp [getCol_cons, hk]
      rw [setCol_cons]
      simp only [hk, if_false, h1]
      rw [getCol_cons]
      simp [hk, ih, h1]

/-- A flatMap whose body yields singletons is a map. -/
theorem flatMap_single {α β : Type} (l : List α) (g : α → β) :
    l.flatMap (fun x => [g x]) = l.map g := by
  induction l with
  | nil => rfl
  | cons a t ih => simp [List.flatMap_cons, ih]

/-- Filtering a duplicate-free list for one element yields that element
exactly when present. -/
theorem nodup_filter_beq (l : List Cell) (d : Cell) (h : l.Nodup) :
    l.filter (fun k => k == d) = if d ∈ l then [d] else [] := by
  induction l with
  | nil => simp
  | cons a t ih =>
    rw [List.filter_cons]
    rcases List.nodup_cons.mp h with ⟨ha, ht⟩
    by_cases had : a = d
    · subst had
      simp [ih ht, ha]
    · have : (a == d) = false := by simpa using had
      simp only [this, if_false, Bool.false_eq_true, ih ht]
      by_cases hdt : d ∈ t <;> simp [hdt, List.mem_cons, had, Ne.symm had]

/-- Keys produced by `groupKeys` are never null. -/
theorem groupKeys_ne_null (rows : List Row) (c : String) (k : Cell)
    (hk : k ∈ groupKeys rows c) : k ≠ Cell.null := by
  unfold groupKeys at hk
  rw [(List.perm_insertionSort _ _).mem_iff, List.mem_dedup, List.mem_filter] at hk
  intro h
  subst h
  simpa using hk.2

/-- `groupKeys` lists exactly the non-null values of the key column. -/
theorem mem_groupKeys (rows : List Row) (c : String) (k : Cell) :
    k ∈ groupKeys rows c ↔ (∃ r, r ∈ rows ∧ getCol r c = k) ∧ k ≠ Cell.null := by
  unfold groupKeys
  rw [(List.perm_insertionSort _ _).mem_iff, List.mem_dedup, List.mem_filter, List.mem_map]
  constructor
  · rintro ⟨⟨r, hr, hrk⟩, hne⟩
    refine ⟨⟨r, hr, hrk⟩, ?_⟩
    intro h; subst h; simp at hne
  · rintro ⟨⟨r, hr, hrk⟩, hne⟩
    refine ⟨⟨r, hr, hrk⟩, ?_⟩
    simpa using hne

/-- `groupKeys` is duplicate-free. -/
theorem groupKeys_nodup (rows : List Row) (c : String) : (groupKeys rows c).Nodup := by
  unfold groupKeys
  exact ((List.perm_insertionSort _ _).nodup_iff).mpr (List.nodup_dedup _)

/-! ## Structural lemmas about the normalizer outputs -/

/-- The cleaned nameplate frame always carries the canonical columns. -/
theorem clean_nameplate_cols (df : RawDF) :
    (clean_nameplate df).2.columns = ["FacilityName", "TJ_Nameplate"] := by
  unfold clean_nameplate
  split <;> rfl

/-- Every source row with facility type exactly "production" contributes
its projected, renamed row to the cleaned nameplate output. -/
theorem clean_nameplate_mem_out (df : RawDF) (r : Row)
    (h : hasCols df nameplateReqCols = true) (hr : r ∈ df.rows)
    (hp : getCol r "facilitytype" = Cell.str "production") :
    [("FacilityName", getCol r "facilityname"), ("TJ_Nameplate", getCol r "nameplaterating")]
      ∈ (clean_nameplate df).2.rows := by
  simp only [clean_nameplate, h, if_true, renameDF, List.mem_map]
  exact ⟨projectRow ["facilityname", "nameplaterating"] r,
    ⟨r, List.mem_filter.mpr ⟨hr, by simp [hp]⟩, rfl⟩, rfl⟩

/-- Every cleaned nameplate row is the projected, renamed image of a source
row with facility type exactly "production". -/
theorem clean_nameplate_out_shape (df : RawDF) (q : Row)
    (hq : q ∈ (clean_nameplate df).2.rows) :
    ∃ r, r ∈ df.rows ∧ getCol r "facilitytype" = Cell.str "production"
      ∧ q = [("FacilityName", getCol r "facilityname"),
             ("TJ_Nameplate", getCol r "nameplaterating")] := by
  unfold clean_nameplate at hq
  by_cases h : hasCols df nameplateReqCols
  · simp only [h, if_true, renameDF, List.mem_map] at hq
    obtain ⟨q1, hq1, hren⟩ := hq
    obtain ⟨r, hr, hproj⟩ := hq1
    obtain ⟨hrdf, hrp⟩ := List.mem_filter.mp hr
    refine ⟨r, hrdf, by simpa using hrp, ?_⟩
    subst hproj
    exact hren.symm
  · simp [h] at hq

/-- Every cleaned outlook row is the coerced, projected, renamed image of a
source row with facility type exactly "production" and a parseable gas
day. -/
theorem clean_mto_out_shape (df : RawDF) (q : Row)
    (hq : q ∈ (clean_mto df).2.rows) :
    ∃ r, r ∈ df.rows ∧ getCol r "facilitytype" = Cell.str "production"
      ∧ to_datetime (getCol r "gasday") ≠ Cell.null
      ∧ q = [("FacilityName", getCol r "facilityname"),
             ("GasDay", to_datetime (getCol r "gasday")),
             ("TJ_Available", getCol r "capacity")] := by
  unfold clean_mto at hq
  by_cases h : hasCols df mtoReqCols
  · simp only [h, if_true, renameDF, List.mem_map] at hq
    obtain ⟨q1, hq1, hren⟩ := hq
    obtain ⟨hq1m, hkeep⟩ := List.mem_filter.mp hq1
    obtain ⟨r2, hr2, hproj⟩ := List.mem_map.mp hq1m
    obtain ⟨hr2m, hr2p⟩ := List.mem_filter.mp hr2
    obtain ⟨r, hr, hmut⟩ := List.mem_map.mp hr2m
    have hgas : getCol r2 "gasday" = to_datetime (getCol r "gasday") := by
      rw [← hmut]; exact getCol_setCol_fun r "gasday" to_datetime rfl
    have hname : getCol r2 "facilityname" = getCol r "facilityname" := by
      rw [← hmut]; exact getCol_setCol_ne r "gasday" "facilityname" _ (by decide)
    have hcap : getCol r2 "capacity" = getCol r "capacity" := by
      rw [← hmut]; exact getCol_setCol_ne r "gasday" "capacity" _ (by decide)
    have htype : getCol r2 "facilitytype" = getCol r "facilitytype" := by
      rw [← hmut]; exact getCol_setCol_ne r "gasday" "facilitytype" _ (by decide)
    have hshape : q1 = [("facilityname", getCol r "facilityname"),
        ("gasday", to_datetime (getCol r "gasday")), ("capacity", getCol r "capacity")] := by
      rw [← hproj]
      simp [projectRow, hgas, hname, hcap]
    refine ⟨r, hr, ?_, ?_, ?_⟩
    · rw [← htype]; simpa using hr2p
    · intro hnull
      rw [hshape] at hkeep
      have hg : getCol [("facilityname", getCol r "facilityname"),
          ("gasday", to_datetime (getCol r "gasday")),
          ("capacity", getCol r "capacity")] "gasday" = to_datetime (getCol r "gasday") := rfl
      rw [hg, hnull] at hkeep
      simp at hkeep
    · rw [← hren, hshape]
      rfl
  · simp [h] at hq

/-- Every source production row with a parseable gas day contributes its
coerced, projected, renamed row to the cleaned outlook output. -/
theorem clean_mto_mem_out (df : RawDF) (r : Row)
    (h : hasCols df mtoReqCols = true) (hr : r ∈ df.rows)
    (hp : getCol r "facilitytype" = Cell.str "production")
    (hd : to_datetime (getCol r "gasday") ≠ Cell.null) :
    [("FacilityName", getCol r "facilityname"),
     ("GasDay", to_datetime (getCol r "gasday")),
     ("TJ_Available", getCol r "capacity")] ∈ (clean_mto df).2.rows := by
  simp only [clean_mto, h, if_true, renameDF, List.mem_map]
  set r2 := setCol r "gasday" (to_datetime (getCol r "gasday")) with hr2def
  have hgas : getCol r2 "gasday" = to_datetime (getCol r "gasday") :=
    getCol_setCol_fun r "gasday" to_datetime rfl
  have hname : getCol r2 "facilityname" = getCol r "facilityname" :=
    getCol_setCol_ne r "gasday" "facilityname" _ (by decide)
  have hcap : getCol r2 "capacity" = getCol r "capacity" :=
    getCol_setCol_ne r "gasday" "capacity" _ (by decide)
  have htype : getCol r2 "facilitytype" = getCol r "facilitytype" :=
    getCol_setCol_ne r "gasday" "facilitytype" _ (by decide)
  have hshape : projectRow ["facilityname", "gasday", "capacity"] r2
      = [("facilityname", getCol r "facilityname"),
         ("gasday", to_datetime (getCol r "gasday")), ("capacity", getCol r "capacity")] := by
    simp [projectRow, hgas, hname, hcap]
  refine ⟨projectRow ["facilityname", "gasday", "capacity"] r2, ?_, ?_⟩
  · refine List.mem_filter.mpr ⟨List.mem_map_of_mem _ ?_, ?_⟩
    · exact List.mem_filter.mpr ⟨List.mem_map_of_mem _ hr, by simp [htype, hp]⟩
    · rw [hshape]
      have hg : getCol [("facilityname", getCol r "facilityname"),
          ("gasday", to_datetime (getCol r "gasday")),
          ("capacity", getCol r "capacity")] "gasday" = to_datetime (getCol r "gasday") := rfl
      rw [hg]
      simpa using hd
  · rw [hshape]
    rfl

/-- Membership in the demand zone selection. -/
theorem mem_demand_zone (fl : RawDF) (r : Row) :
    r ∈ demand_zone fl ↔
      ∃ s, s ∈ fl.rows ∧ r = setCol s "gasday" (to_datetime (getCol s "gasday"))
        ∧ getCol s "zonetype" = Cell.str "demand"
        ∧ getCol s "zonename" = Cell.str "whole wa" := by
  unfold demand_zone
  rw [List.mem_filter, List.mem_map]
  constructor
  · rintro ⟨⟨s, hs, hmut⟩, hpred⟩
    have hzt : getCol r "zonetype" = getCol s "zonetype" := by
      rw [← hmut]; exact getCol_setCol_ne s "gasday" "zonetype" _ (by decide)
    have hzn : getCol r "zonename" = getCol s "zonename" := by
      rw [← hmut]; exact getCol_setCol_ne s "gasday" "zonename" _ (by decide)
    simp only [Bool.and_eq_true, beq_iff_eq] at hpred
    exact ⟨s, hs, hmut.symm, by rw [← hzt]; exact hpred.1, by rw [← hzn]; exact hpred.2⟩
  · rintro ⟨s, hs, hmut, hzt, hzn⟩
    have hzt2 : getCol r "zonetype" = Cell.str "demand" := by
      rw [hmut, getCol_setCol_ne s "gasday" "zonetype" _ (by decide)]; exact hzt
    have hzn2 : getCol r "zonename" = Cell.str "whole wa" := by
      rw [hmut, getCol_setCol_ne s "gasday" "zonename" _ (by decide)]; exact hzn
    exact ⟨⟨s, hs, hmut.symm⟩, by simp [hzt2, hzn2]⟩

/-- Closed form of the demand profile rows: one row per sorted distinct
non-null coerced gas day of the demand zone, carrying the summed
quantity. -/
theorem build_demand_profile_rows (fl : RawDF) (h : hasCols fl flowsReqCols = true) :
    (build_demand_profile fl).rows
      = (groupKeys (demand_zone fl) "gasday").map (fun k =>
          [("GasDay", k),
           ("TJ_Demand", Cell.num (sumCol
             ((demand_zone fl).filter (fun r => getCol r "gasday" == k)) "quantity"))]) := by
  have hne : ∀ k ∈ groupKeys (demand_zone fl) "gasday", k ≠ Cell.null :=
    fun k hk => groupKeys_ne_null _ _ _ hk
  simp only [build_demand_profile, h, if_true, renameDF, groupbySum, List.map_map]
  revert hne
  generalize groupKeys (demand_zone fl) "gasday" = ks
  intro hne
  induction ks with
  | nil => rfl
  | cons k t ih =>
    have hk : k ≠ Cell.null := hne k (List.mem_cons_self _ _)
    simp only [List.map_cons, List.filter_cons, Function.comp]
    rw [ih (fun x hx => hne x (List.mem_cons_of_mem _ hx))]
    have hr1 : renameKey [("gasday", "GasDay"), ("quantity", "TJ_Demand")] "gasday"
        = "GasDay" := rfl
    have hr2 : renameKey [("gasday", "GasDay"), ("quantity", "TJ_Demand")] "quantity"
        = "TJ_Demand" := rfl
    rw [hr1, hr2]
    have hpred : getCol [("GasDay", k),
        ("TJ_Demand", Cell.num (sumCol
          ((demand_zone fl).filter (fun r => getCol r "gasday" == k)) "quantity"))] "GasDay" = k := rfl
    simp [hpred, hk]

/-- Every supply-profile row carries exactly the four canonical keys, a
non-null gas day, and a null available capacity only when the nameplate
fallback had nothing to offer either. -/
theorem build_supply_profile_rows_shape (np mto : RawDF) (q : Row)
    (hq : q ∈ (build_supply_profile np mto).rows) :
    ∃ a b c d, q = [("FacilityName", a), ("GasDay", b), ("TJ_Available", c), ("TJ_Nameplate", d)]
      ∧ b ≠ Cell.null ∧ (c = Cell.null → d = Cell.null) := by
  simp only [build_supply_profile] at hq
  split at hq
  · simp at hq
  · simp only [fillnaFrom, List.mem_map] at hq
    obtain ⟨q0, hq0, hfill⟩ := hq
    simp only [mergeLeft, List.mem_flatMap] at hq0
    obtain ⟨lr, hlr, hq0b⟩ := hq0
    obtain ⟨rm, hrm, hpm, hdm, hlreq⟩ := clean_mto_out_shape mto lr hlr
    rw [clean_nameplate_cols np] at hq0b
    have hq0shape : ∃ y, q0 = [("FacilityName", getCol rm "facilityname"),
        ("GasDay", to_datetime (getCol rm "gasday")),
        ("TJ_Available", getCol rm "capacity"), ("TJ_Nameplate", y)] := by
      split at hq0b
      · subst hlreq
        simp only [List.mem_singleton] at hq0b
        exact ⟨Cell.null, by rw [hq0b]; rfl⟩
      · simp only [List.mem_map] at hq0b
        obtain ⟨rr, hrr, hq0e⟩ := hq0b
        obtain ⟨rn, hrn, hpn, hrreq⟩ :=
          clean_nameplate_out_shape np rr (List.mem_filter.mp hrr).1
        refine ⟨getCol rn "nameplaterating", ?_⟩
        rw [← hq0e, hlreq, hrreq]
        rfl
    obtain ⟨y, hq0s⟩ := hq0shape
    rw [hq0s] at hfill
    by_cases hc : getCol rm "capacity" = Cell.null
    · refine ⟨getCol rm "facilityname", to_datetime (getCol rm "gasday"), y, y, ?_, hdm, fun hy => hy⟩
      rw [← hfill, hc]
      rfl
    · refine ⟨getCol rm "facilityname", to_datetime (getCol rm "gasday"),
        getCol rm "capacity", y, ?_, hdm, fun hcn => absurd hcn hc⟩
      rw [← hfill]
      have hval : getCol [("FacilityName", getCol rm "facilityname"),
          ("GasDay", to_datetime (getCol rm "gasday")),
          ("TJ_Available", getCol rm "capacity"), ("TJ_Nameplate", y)] "TJ_Available"
            = getCol rm "capacity" := rfl
      rw [if_neg]
      rw [hval]
      simpa using hc

/-! ## Claim theorems -/

/-- C2 counterexample: with an empty supply profile but a non-empty demand
profile, `get_model` does NOT return both outputs empty — its second output
is the non-empty demand profile, so the claim fails at this input. -/
theorem c2_counterexample :
    (get_model npMissing mtoF40 flOne).1.rows = []
    ∧ (get_model npMissing mtoF40 flOne).2.rows =
        [[("GasDay", Cell.date 20240101), ("TJ_Demand", Cell.num 30)]] := by decide

/-- C2 (amended): if either profile is empty, `get_model` returns the two
profiles exactly as computed (supply profile first, demand profile second)
without raising; both outputs are empty only when both profiles are. -/
theorem c2_empty_profile_passthrough (np mto fl : RawDF)
    (h : (build_supply_profile np mto).rows = [] ∨ (build_demand_profile fl).rows = []) :
    get_model np mto fl = (build_supply_profile np mto, build_demand_profile fl) := by
  have hb : ((build_supply_profile np mto).rows.isEmpty
      || (build_demand_profile fl).rows.isEmpty) = true := by
    rcases h with h | h <;> simp [h]
  simp [get_model, hb]

/-- C2 witness: the amended behaviour at a concrete input with an empty
supply profile and a non-empty demand profile. -/
theorem c2_empty_profile_passthrough_witness :
    get_model npMissing mtoF40 flOne
      = (build_supply_profile npMissing mtoF40, build_demand_profile flOne) :=
  c2_empty_profile_passthrough npMissing mtoF40 flOne (Or.inl (by decide))

/-- C3 counterexample: a successful-status payload that starts with an HTML
document marker is written to the cache and accepted — it is not rejected
and nothing is deleted, so the claim fails at this input. -/
theorem c3_counterexample :
    isHtmlPayload "<html><body>503</body></html>" = true
    ∧ download [] 0 "GasBBNameplateRatingCurrent.csv" ⟨200, "<html><body>503</body></html>"⟩
        = ([("GasBBNameplateRatingCurrent.csv", ⟨"<html><body>503</body></html>", 0⟩)],
           some (pathFor "GasBBNameplateRatingCurrent.csv")) := by decide

/-- C3 (amended): `_download` performs no content validation at all — any
payload that passes the HTTP status check, HTML included, overwrites the
cached file and the local path is returned; there is no InvalidPayload
failure and no partial-artifact deletion. -/
theorem c3_download_accepts_any_payload (cache : Cache) (now : Int) (fname : String)
    (resp : HttpResponse) (h : resp.status < 400) :
    download cache now fname resp
      = (writeCache cache fname ⟨resp.content, now⟩, some (pathFor fname)) := by
  unfold download
  rw [if_neg (by omega)]

/-- C3 witness: the amended behaviour at a concrete HTML payload. -/
theorem c3_download_accepts_any_payload_witness :
    download [] 0 "f.csv" ⟨200, "<html>error page"⟩
      = (writeCache [] "f.csv" ⟨"<html>error page", 0⟩, some (pathFor "f.csv")) :=
  c3_download_accepts_any_payload [] 0 "f.csv" ⟨200, "<html>error page"⟩ (by decide)

/-- C4 counterexample: `fetch_csv` on the unknown key "bogus" returns
normally with an empty, column-less frame — the KeyError is swallowed by
the blanket except, so the claim of a fail-fast error is false here. -/
theorem c4_counterexample :
    fetch_csv netDown parseFail [] 0 "bogus" false = ⟨[], ⟨[], []⟩, false⟩ := by decide

/-- C4 (amended): an unrecognized dataset key does not raise to the
caller: the KeyError is caught, no download is attempted, the cache is
untouched and the result degrades to an empty table with no columns. -/
theorem c4_unknown_key_degrades (net : String → Option HttpResponse)
    (parse : String → Option RawDF) (cache : Cache) (now : Int) (key : String) (force : Bool)
    (h : lookupKey key = none) :
    fetch_csv net parse cache now key force = ⟨cache, emptyFallback key, false⟩
    ∧ emptyFallback key = ⟨[], []⟩ := by
  constructor
  · simp [fetch_csv, h]
  · have hn : key ≠ "nameplate" := by rintro rfl; exact absurd h (by decide)
    have hm : key ≠ "mto_future" := by rintro rfl; exact absurd h (by decide)
    have hf : key ≠ "flows" := by rintro rfl; exact absurd h (by decide)
    simp [emptyFallback, hn, hm, hf]

/-- C4 witness: the amended behaviour at the concrete key "bogus". -/
theorem c4_unknown_key_degrades_witness :
    fetch_csv netDown parseFail [] 0 "bogus" false = ⟨[], emptyFallback "bogus", false⟩
    ∧ emptyFallback "bogus" = ⟨[], []⟩ :=
  c4_unknown_key_degrades netDown parseFail [] 0 "bogus" false (by decide)

/-- C6: each of the three normalizers, given a frame missing any required
column, returns the empty result carrying exactly its canonical output
columns (totality of the embedding models the absence of exceptions). -/
theorem c6_missing_columns_soft_fail (df : RawDF) :
    (hasCols df nameplateReqCols = false → (clean_nameplate df).2 = ⟨nameplateOutCols, []⟩)
    ∧ (hasCols df mtoReqCols = false → (clean_mto df).2 = ⟨mtoOutCols, []⟩)
    ∧ (hasCols df flowsReqCols = false → build_demand_profile df = ⟨demandOutCols, []⟩) := by
  refine ⟨fun h => ?_, fun h => ?_, fun h => ?_⟩ <;>
    simp [clean_nameplate, clean_mto, build_demand_profile, h]

/-- C6 witness: the three soft-fail results at a concrete frame that lacks
required columns for all three normalizers. -/
theorem c6_missing_columns_soft_fail_witness :
    (clean_nameplate npMissing).2 = ⟨nameplateOutCols, []⟩
    ∧ (clean_mto npMissing).2 = ⟨mtoOutCols, []⟩
    ∧ build_demand_profile npMissing = ⟨demandOutCols, []⟩ :=
  ⟨(c6_missing_columns_soft_fail npMissing).1 (by decide),
   (c6_missing_columns_soft_fail npMissing).2.1 (by decide),
   (c6_missing_columns_soft_fail npMissing).2.2 (by decide)⟩

/-- C9 counterexample: `clean_mto` hands back a mutated input frame — the
caller's gasday column has been overwritten with the coerced datetime — so
the claim that both normalizers leave the raw record set unmodified fails. -/
theorem c9_counterexample :
    (clean_mto mtoStrDay).1 ≠ mtoStrDay
    ∧ (clean_mto mtoStrDay).1.rows =
        [[("facilityname", Cell.str "F"), ("facilitytype", Cell.str "production"),
          ("gasday", Cell.date 20240107), ("capacity", Cell.num 40)]] := by decide

/-- C9 (amended): `clean_nameplate` leaves its input unmodified (it copies
before mutating), but `clean_mto` overwrites the caller's gasday column
with coerced datetimes whenever the required columns are present; with
required columns absent it returns before mutating. Outputs depend only on
the inputs. -/
theorem c9_normalizer_mutation :
    (∀ df, (clean_nameplate df).1 = df)
    ∧ (∀ df, hasCols df mtoReqCols = true →
        (clean_mto df).1 =
          ⟨df.columns, df.rows.map (fun r => setCol r "gasday" (to_datetime (getCol r "gasday")))⟩)
    ∧ (∀ df, hasCols df mtoReqCols = false → (clean_mto df).1 = df) := by
  refine ⟨fun df => ?_, fun df h => ?_, fun df h => ?_⟩
  · unfold clean_nameplate; split <;> rfl
  · simp [clean_mto, h]
  · simp [clean_mto, h]

/-- C9 witness: the mutation equation at a concrete frame with a string
gasday, discharging the required-columns hypothesis. -/
theorem c9_normalizer_mutation_witness :
    (clean_mto mtoStrDay).1 =
      ⟨mtoStrDay.columns,
       mtoStrDay.rows.map (fun r => setCol r "gasday" (to_datetime (getCol r "gasday")))⟩ :=
  c9_normalizer_mutation.2.1 mtoStrDay (by decide)

/-- C10: with the facility F listed twice in the nameplate data, the left
join emits one supply row per (outlook row, nameplate row) pair — two rows
for F on the same gas day — and F's outlook capacity of 40 is counted twice
in the per-day total supply (80), visible in the model row. -/
theorem c10_duplicate_nameplate_double_count :
    (clean_nameplate npDup).2.rows.map (fun r => getCol r "FacilityName")
      = [Cell.str "F", Cell.str "F"]
    ∧ (build_supply_profile npDup mtoF40).rows.length = 2
    ∧ (build_supply_profile npDup mtoF40).rows.map (fun r => getCol r "TJ_Available")
      = [Cell.num 40, Cell.num 40]
    ∧ (get_model npDup mtoF40 flOne).2.rows
      = [[("GasDay", Cell.date 20240101), ("TJ_Demand", Cell.num 30),
          ("TJ_Available", Cell.num 80), ("Shortfall", Cell.num 50)]] := by decide

/-- C5 counterexample: the filters are case-sensitive.  "Production" equals
"production" up to letter case, yet the nameplate row is dropped; likewise
the mixed-case demand-zone row yields an empty demand profile. -/
theorem c5_counterexample :
    strCaseEq "Production" "production" = true
    ∧ npCaps.rows.length = 1
    ∧ (clean_nameplate npCaps).2.rows = []
    ∧ strCaseEq "Demand" "demand" = true
    ∧ strCaseEq "Whole WA" "whole wa" = true
    ∧ flCaps.rows.length = 1
    ∧ build_demand_profile flCaps = ⟨demandOutCols, []⟩ := by decide

/-- C5 (amended): the row filters match by exact, case-sensitive equality:
a nameplate row is kept iff its facility type is exactly "production", an
outlook row is kept iff its facility type is exactly "production" (and its
gas day parses), and a flow row feeds the demand profile iff its zone type
is exactly "demand" and its zone name exactly "whole wa" (and its gas day
parses); rows differing only in letter case are dropped. -/
theorem c5_filters_exact_match (np mto fl : RawDF)
    (h1 : hasCols np nameplateReqCols = true) (h2 : hasCols mto mtoReqCols = true)
    (h3 : hasCols fl flowsReqCols = true) :
    (∀ r, r ∈ np.rows → getCol r "facilitytype" = Cell.str "production" →
      [("FacilityName", getCol r "facilityname"), ("TJ_Nameplate", getCol r "nameplaterating")]
        ∈ (clean_nameplate np).2.rows)
    ∧ (∀ q, q ∈ (clean_nameplate np).2.rows →
      ∃ r, r ∈ np.rows ∧ getCol r "facilitytype" = Cell.str "production"
        ∧ q = [("FacilityName", getCol r "facilityname"),
               ("TJ_Nameplate", getCol r "nameplaterating")])
    ∧ (∀ r, r ∈ mto.rows → getCol r "facilitytype" = Cell.str "production" →
      to_datetime (getCol r "gasday") ≠ Cell.null →
      [("FacilityName", getCol r "facilityname"),
       ("GasDay", to_datetime (getCol r "gasday")),
       ("TJ_Available", getCol r "capacity")] ∈ (clean_mto mto).2.rows)
    ∧ (∀ q, q ∈ (clean_mto mto).2.rows →
      ∃ r, r ∈ mto.rows ∧ getCol r "facilitytype" = Cell.str "production"
        ∧ to_datetime (getCol r "gasday") ≠ Cell.null
        ∧ q = [("FacilityName", getCol r "facilityname"),
               ("GasDay", to_datetime (getCol r "gasday")),
               ("TJ_Available", getCol r "capacity")])
    ∧ (∀ q, q ∈ (build_demand_profile fl).rows →
      ∃ r, r ∈ fl.rows ∧ getCol r "zonetype" = Cell.str "demand"
        ∧ getCol r "zonename" = Cell.str "whole wa"
        ∧ getCol q "GasDay" = to_datetime (getCol r "gasday"))
    ∧ (∀ r, r ∈ fl.rows → getCol r "zonetype" = Cell.str "demand" →
      getCol r "zonename" = Cell.str "whole wa" →
      to_datetime (getCol r "gasday") ≠ Cell.null →
      ∃ q, q ∈ (build_demand_profile fl).rows
        ∧ getCol q "GasDay" = to_datetime (getCol r "gasday")) := by
  refine ⟨fun r hr hp => clean_nameplate_mem_out np r h1 hr hp,
          fun q hq => clean_nameplate_out_shape np q hq,
          fun r hr hp hpd => clean_mto_mem_out mto r h2 hr hp hpd,
          fun q hq => clean_mto_out_shape mto q hq, ?_, ?_⟩
  · intro q hq
    rw [build_demand_profile_rows fl h3] at hq
    obtain ⟨k, hk, hqk⟩ := List.mem_map.mp hq
    obtain ⟨⟨rz, hrz, hrzk⟩, hkne⟩ := (mem_groupKeys _ _ _).mp hk
    obtain ⟨s, hs, hmut, hzt, hzn⟩ := (mem_demand_zone fl rz).mp hrz
    refine ⟨s, hs, hzt, hzn, ?_⟩
    have hgq : getCol q "GasDay" = k := by rw [← hqk]; rfl
    rw [hgq, ← hrzk, hmut]
    exact getCol_setCol_fun s "gasday" to_datetime rfl
  · intro r hr hzt hzn hdne
    have hrz : setCol r "gasday" (to_datetime (getCol r "gasday")) ∈ demand_zone fl :=
      (mem_demand_zone fl _).mpr ⟨r, hr, rfl, hzt, hzn⟩
    have hkey : to_datetime (getCol r "gasday") ∈ groupKeys (demand_zone fl) "gasday" :=
      (mem_groupKeys _ _ _).mpr
        ⟨⟨_, hrz, getCol_setCol_fun r "gasday" to_datetime rfl⟩, hdne⟩
    refine ⟨[("GasDay", to_datetime (getCol r "gasday")),
             ("TJ_Demand", Cell.num (sumCol ((demand_zone fl).filter
               (fun x => getCol x "gasday" == to_datetime (getCol r "gasday"))) "quantity"))],
            ?_, rfl⟩
    rw [build_demand_profile_rows fl h3]
    exact List.mem_map_of_mem _ hkey

/-- C5 witness: the exact-match directions at concrete inputs, covering
the nameplate, outlook and flow filters. -/
theorem c5_filters_exact_match_witness :
    [("FacilityName", Cell.str "F"), ("TJ_Nameplate", Cell.num 50)]
      ∈ (clean_nameplate (npSingle 50)).2.rows
    ∧ [("FacilityName", Cell.str "F"), ("GasDay", Cell.date 20240101),
       ("TJ_Available", Cell.num 40)] ∈ (clean_mto mtoF40).2.rows
    ∧ ∃ q, q ∈ (build_demand_profile flOne).rows
        ∧ getCol q "GasDay" = to_datetime (Cell.date 20240101) := by
  have h := c5_filters_exact_match (npSingle 50) mtoF40 flOne
    (by decide) (by decide) (by decide)
  exact ⟨h.1 [("facilityname", Cell.str "F"), ("facilitytype", Cell.str "production"),
              ("nameplaterating", Cell.num 50)] (by decide) (by decide),
         h.2.2.1 [("facilityname", Cell.str "F"), ("facilitytype", Cell.str "production"),
                  ("gasday", Cell.date 20240101), ("capacity", Cell.num 40)]
           (by decide) (by decide) (by decide),
         h.2.2.2.2.2 [("gasday", Cell.date 20240101), ("zonetype", Cell.str "demand"),
                      ("zonename", Cell.str "whole wa"), ("quantity", Cell.num 30)]
           (by decide) (by decide) (by decide) (by decide)⟩

/-- C7: every supply-profile row, over arbitrary raw inputs, stems from a
cleaned outlook row joined on facility name: a null outlook capacity is
filled so that the row's available capacity equals its nameplate cell,
which is itself the nameplate capacity of a cleaned nameplate row with the
same facility name (null only when the left join found no match); a
non-null outlook capacity is carried through unchanged.  In particular an
outlook row for F on day d with null capacity merged with a nameplate of v
TJ/day yields exactly the supply row (F, d) with available capacity v. -/
theorem c7_nameplate_fallback :
    (∀ np mto q, q ∈ (build_supply_profile np mto).rows →
      ∃ m, m ∈ (clean_mto mto).2.rows
        ∧ getCol q "FacilityName" = getCol m "FacilityName"
        ∧ getCol q "GasDay" = getCol m "GasDay"
        ∧ (getCol m "TJ_Available" = Cell.null →
            getCol q "TJ_Available" = getCol q "TJ_Nameplate")
        ∧ (getCol m "TJ_Available" ≠ Cell.null →
            getCol q "TJ_Available" = getCol m "TJ_Available")
        ∧ ((∃ n, n ∈ (clean_nameplate np).2.rows
              ∧ getCol n "FacilityName" = getCol m "FacilityName"
              ∧ getCol q "TJ_Nameplate" = getCol n "TJ_Nameplate")
            ∨ getCol q "TJ_Nameplate" = Cell.null))
    ∧ ∀ v d : Int,
        build_supply_profile (npSingle v) (mtoNullCap d)
          = ⟨supplyOutCols,
             [[("FacilityName", Cell.str "F"), ("GasDay", Cell.date d),
               ("TJ_Available", Cell.num v), ("TJ_Nameplate", Cell.num v)]]⟩ := by
  constructor
  · intro np mto q hq
    simp only [build_supply_profile] at hq
    split at hq
    · simp at hq
    · simp only [fillnaFrom, List.mem_map] at hq
      obtain ⟨q0, hq0, hfill⟩ := hq
      simp only [mergeLeft, List.mem_flatMap] at hq0
      obtain ⟨lr, hlr, hq0b⟩ := hq0
      obtain ⟨rm, hrm, hpm, hdm, hlreq⟩ := clean_mto_out_shape mto lr hlr
      rw [clean_nameplate_cols np] at hq0b
      have hq0shape : ∃ t, q0 = [("FacilityName", getCol rm "facilityname"),
          ("GasDay", to_datetime (getCol rm "gasday")),
          ("TJ_Available", getCol rm "capacity"), ("TJ_Nameplate", t)]
          ∧ ((∃ n, n ∈ (clean_nameplate np).2.rows
                ∧ getCol n "FacilityName" = getCol lr "FacilityName"
                ∧ t = getCol n "TJ_Nameplate")
              ∨ t = Cell.null) := by
        split at hq0b
        · simp only [List.mem_singleton] at hq0b
          exact ⟨Cell.null, by rw [hq0b, hlreq]; rfl, Or.inr rfl⟩
        · simp only [List.mem_map] at hq0b
          obtain ⟨rr, hrr, hq0e⟩ := hq0b
          have hrrmem := (List.mem_filter.mp hrr).1
          have hrrpred : getCol rr "FacilityName" = getCol lr "FacilityName" := by
            simpa using (List.mem_filter.mp hrr).2
          obtain ⟨rn, hrn, hpn, hrreq⟩ := clean_nameplate_out_shape np rr hrrmem
          refine ⟨getCol rn "nameplaterating", ?_, Or.inl ⟨rr, hrrmem, hrrpred, ?_⟩⟩
          · rw [← hq0e, hlreq, hrreq]
            rfl
          · rw [hrreq]
            rfl
      obtain ⟨t, hq0s, hlink⟩ := hq0shape
      rw [hq0s] at hfill
      by_cases hc : getCol rm "capacity" = Cell.null
      · have hqv : q = [("FacilityName", getCol rm "facilityname"),
            ("GasDay", to_datetime (getCol rm "gasday")),
            ("TJ_Available", t), ("TJ_Nameplate", t)] := by
          rw [← hfill, hc]
          rfl
        refine ⟨lr, hlr, ?_, ?_, fun _ => ?_, fun hne => ?_, ?_⟩
        · rw [hqv, hlreq]; rfl
        · rw [hqv, hlreq]; rfl
        · rw [hqv]; rfl
        · exact absurd (show getCol lr "TJ_Available" = Cell.null by
            rw [hlreq]; exact hc) hne
        · rcases hlink with ⟨n, hn, hnf, hnt⟩ | hnull
          · exact Or.inl ⟨n, hn, hnf, by rw [hqv]; exact hnt⟩
          · exact Or.inr (by rw [hqv]; exact hnull)
      · have hbeq : (getCol [("FacilityName", getCol rm "facilityname"),
            ("GasDay", to_datetime (getCol rm "gasday")),
            ("TJ_Available", getCol rm "capacity"), ("TJ_Nameplate", t)] "TJ_Available"
              == Cell.null) = false := by
          have hval : getCol [("FacilityName", getCol rm "facilityname"),
              ("GasDay", to_datetime (getCol rm "gasday")),
              ("TJ_Available", getCol rm "capacity"), ("TJ_Nameplate", t)] "TJ_Available"
                = getCol rm "capacity" := rfl
          rw [hval]
          simpa using hc
        have hqv : q = [("FacilityName", getCol rm "facilityname"),
            ("GasDay", to_datetime (getCol rm "gasday")),
            ("TJ_Available", getCol rm "capacity"), ("TJ_Nameplate", t)] := by
          rw [← hfill, if_neg (by simp [hbeq])]
        refine ⟨lr, hlr, ?_, ?_, fun h0 => ?_, fun _ => ?_, ?_⟩
        · rw [hqv, hlreq]; rfl
        · rw [hqv, hlreq]; rfl
        · exact absurd (show getCol rm "capacity" = Cell.null by
            rw [hlreq] at h0; exact h0) hc
        · rw [hqv, hlreq]; rfl
        · rcases hlink with ⟨n, hn, hnf, hnt⟩ | hnull
          · exact Or.inl ⟨n, hn, hnf, by rw [hqv]; exact hnt⟩
          · exact Or.inr (by rw [hqv]; exact hnull)
  · intro v d
    rfl

/-- C7 witness: the join-and-fill description applied at the concrete
supply row produced from a null-capacity outlook row for F on day 1 and a
nameplate of 50 TJ/day. -/
theorem c7_nameplate_fallback_witness :
    ∃ m, m ∈ (clean_mto (mtoNullCap 1)).2.rows
      ∧ getCol [("FacilityName", Cell.str "F"), ("GasDay", Cell.date 1),
                ("TJ_Available", Cell.num 50), ("TJ_Nameplate", Cell.num 50)] "FacilityName"
          = getCol m "FacilityName"
      ∧ getCol [("FacilityName", Cell.str "F"), ("GasDay", Cell.date 1),
                ("TJ_Available", Cell.num 50), ("TJ_Nameplate", Cell.num 50)] "GasDay"
          = getCol m "GasDay"
      ∧ (getCol m "TJ_Available" = Cell.null →
          getCol [("FacilityName", Cell.str "F"), ("GasDay", Cell.date 1),
                  ("TJ_Available", Cell.num 50), ("TJ_Nameplate", Cell.num 50)] "TJ_Available"
            = getCol [("FacilityName", Cell.str "F"), ("GasDay", Cell.date 1),
                      ("TJ_Available", Cell.num 50), ("TJ_Nameplate", Cell.num 50)] "TJ_Nameplate")
      ∧ (getCol m "TJ_Available" ≠ Cell.null →
          getCol [("FacilityName", Cell.str "F"), ("GasDay", Cell.date 1),
                  ("TJ_Available", Cell.num 50), ("TJ_Nameplate", Cell.num 50)] "TJ_Available"
            = getCol m "TJ_Available")
      ∧ ((∃ n, n ∈ (clean_nameplate (npSingle 50)).2.rows
            ∧ getCol n "FacilityName" = getCol m "FacilityName"
            ∧ getCol [("FacilityName", Cell.str "F"), ("GasDay", Cell.date 1),
                      ("TJ_Available", Cell.num 50), ("TJ_Nameplate", Cell.num 50)] "TJ_Nameplate"
                = getCol n "TJ_Nameplate")
          ∨ getCol [("FacilityName", Cell.str "F"), ("GasDay", Cell.date 1),
                    ("TJ_Available", Cell.num 50), ("TJ_Nameplate", Cell.num 50)] "TJ_Nameplate"
              = Cell.null) :=
  c7_nameplate_fallback.1 (npSingle 50) (mtoNullCap 1)
    [("FacilityName", Cell.str "F"), ("GasDay", Cell.date 1),
     ("TJ_Available", Cell.num 50), ("TJ_Nameplate", Cell.num 50)] (by decide)

/-- The download path of `fetch_csv` is taken exactly when the refresh is
forced or the cached file is stale. -/
theorem fetch_csv_usedDownload (net : String → Option HttpResponse)
    (parse : String → Option RawDF) (cache : Cache) (now : Int)
    (key fname : String) (force : Bool) (hkey : lookupKey key = some fname) :
    (fetch_csv net parse cache now key force).usedDownload
      = (force || stale cache now fname) := by
  simp only [fetch_csv, hkey]
  cases hcond : (force || stale cache now fname) with
  | false =>
    simp only [hcond, Bool.false_eq_true, if_false]
    split
    · rfl
    · split <;> rfl
  | true =>
    simp only [hcond, if_true]
    split
    · rfl
    · split
      · rfl
      · split
        · rfl
        · split <;> rfl

/-- C8: for a valid dataset key, an unforced fetch against a cache entry
younger than 24 hours serves the parsed cached content without touching
the cache or taking the download path; a missing or more-than-24-hour-old
entry triggers the download path; and a forced fetch always takes the
download path. -/
theorem c8_cache_staleness (net : String → Option HttpResponse)
    (parse : String → Option RawDF) (cache : Cache) (now : Int) (key fname : String)
    (hkey : lookupKey key = some fname) :
    (∀ e, lookupCache cache fname = some e → now - e.mtime < 86400 →
      (fetch_csv net parse cache now key false).usedDownload = false
      ∧ (fetch_csv net parse cache now key false).cache = cache
      ∧ ∀ df0, parse e.content = some df0 →
          (fetch_csv net parse cache now key false).df = lowerDF df0)
    ∧ ((lookupCache cache fname = none
        ∨ ∃ e, lookupCache cache fname = some e ∧ 86400 < now - e.mtime) →
      (fetch_csv net parse cache now key false).usedDownload = true)
    ∧ (fetch_csv net parse cache now key true).usedDownload = true := by
  refine ⟨?_, ?_, ?_⟩
  · intro e he hfresh
    have hstale : stale cache now fname = false := by
      simp only [stale, he]
      simp only [decide_eq_false_iff_not]
      omega
    have hfetch : fetch_csv net parse cache now key false
        = match parse e.content with
          | none => ⟨cache, emptyFallback key, false⟩
          | some df => ⟨cache, lowerDF df, false⟩ := by
      simp only [fetch_csv, hkey, hstale, Bool.or_false, Bool.false_eq_true, if_false, he]
    refine ⟨?_, ?_, ?_⟩
    · rw [fetch_csv_usedDownload net parse cache now key fname false hkey, hstale]
      rfl
    · rw [hfetch]
      cases parse e.content with
      | none => rfl
      | some df => rfl
    · intro df0 hdf
      rw [hfetch, hdf]
  · intro hcase
    have hstale : stale cache now fname = true := by
      rcases hcase with h | ⟨e, he, hold⟩
      · simp [stale, h]
      · simp only [stale, he]
        simp only [decide_eq_true_eq]
        omega
    rw [fetch_csv_usedDownload net parse cache now key fname false hkey, hstale]
    rfl
  · rw [fetch_csv_usedDownload net parse cache now key fname true hkey]
    rfl

/-- C8 witness: a fresh flows cache entry is served without download and
without cache modification; a forced fetch takes the download path. -/
theorem c8_cache_staleness_witness :
    (fetch_csv netOk parseConst cacheFlows 100 "flows" false).usedDownload = false
    ∧ (fetch_csv netOk parseConst cacheFlows 100 "flows" false).cache = cacheFlows
    ∧ (fetch_csv netOk parseConst cacheFlows 100 "flows" false).df = lowerDF ⟨["GasDay"], []⟩
    ∧ (fetch_csv netOk parseConst cacheFlows 100 "flows" true).usedDownload = true := by
  have h := c8_cache_staleness netOk parseConst cacheFlows 100 "flows"
    "GasBBActualFlowStorageLast31.CSV" (by decide)
  have ha := h.1 ⟨"cached", 0⟩ (by decide) (by decide)
  exact ⟨ha.1, ha.2.1, ha.2.2 ⟨["GasDay"], []⟩ rfl, h.2.2⟩

/-- A flatMap whose body is pointwise a singleton is a map. -/
theorem flatMap_eq_map_single {α β : Type} (l : List α) (f : α → List β) (g : α → β)
    (h : ∀ a, f a = [g a]) : l.flatMap f = l.map g := by
  have hf : f = fun a => [g a] := funext h
  rw [hf]
  exact flatMap_single l g

/-- Closed form of the left join of an arbitrary frame onto the per-day
total-supply series: the per-day grouped keys are duplicate-free, so each
left row gains exactly one `TJ_Available` cell — the group sum when its gas
day has supply rows, null otherwise. -/
theorem mergeLeft_total_supply_rows (dem : RawDF) (rows2 : List Row) :
    (mergeLeft dem ⟨["GasDay", "TJ_Available"], groupbySum rows2 "GasDay" "TJ_Available"⟩
      "GasDay").rows
      = dem.rows.map (fun dr =>
          dr ++ [("TJ_Available",
            if getCol dr "GasDay" ∈ groupKeys rows2 "GasDay"
            then Cell.num (sumCol (rows2.filter
              (fun s => getCol s "GasDay" == getCol dr "GasDay")) "TJ_Available")
            else Cell.null)]) := by
  simp only [mergeLeft]
  apply flatMap_eq_map_single
  intro dr
  have hms : (groupbySum rows2 "GasDay" "TJ_Available").filter
      (fun rr => getCol rr "GasDay" == getCol dr "GasDay")
      = ((groupKeys rows2 "GasDay").filter (fun x => x == getCol dr "GasDay")).map
          (fun k => [("GasDay", k), ("TJ_Available", Cell.num (sumCol
            (rows2.filter (fun r => getCol r "GasDay" == k)) "TJ_Available"))]) := by
    simp only [groupbySum, List.filter_map]
    congr 1
  rw [hms, nodup_filter_beq _ _ (groupKeys_nodup rows2 "GasDay")]
  by_cases hmem : getCol dr "GasDay" ∈ groupKeys rows2 "GasDay"
  · rw [if_pos hmem, if_pos hmem]
    rfl
  · rw [if_neg hmem, if_neg hmem]
    rfl

/-- Proof abbreviation: the per-day demand quantity sum. -/
def demSum (fl : RawDF) (k : Cell) : Int :=
  sumCol ((demand_zone fl).filter (fun r => getCol r "gasday" == k)) "quantity"

/-- Proof abbreviation: the total-supply cell a model row receives for gas
day k — the per-day sum of available capacity when the supply profile has
rows for k, null otherwise. -/
def tsCell (np mto : RawDF) (k : Cell) : Cell :=
  if k ∈ groupKeys (build_supply_profile np mto).rows "GasDay"
  then Cell.num (sumCol ((build_supply_profile np mto).rows.filter
    (fun s => getCol s "GasDay" == k)) "TJ_Available")
  else Cell.null

/-- Proof abbreviation: the model row `get_model` emits for gas day k. -/
def modelRow (np mto fl : RawDF) (k : Cell) : Row :=
  [("GasDay", k),
   ("TJ_Demand", Cell.num (demSum fl k)),
   ("TJ_Available", tsCell np mto k),
   ("Shortfall", cellSub (tsCell np mto k) (Cell.num (demSum fl k)))]

theorem modelRow_day (np mto fl : RawDF) (k : Cell) :
    getCol (modelRow np mto fl k) "GasDay" = k := rfl

theorem modelRow_demand (np mto fl : RawDF) (k : Cell) :
    getCol (modelRow np mto fl k) "TJ_Demand" = Cell.num (demSum fl k) := rfl

theorem modelRow_avail (np mto fl : RawDF) (k : Cell) :
    getCol (modelRow np mto fl k) "TJ_Available" = tsCell np mto k := rfl

theorem modelRow_short (np mto fl : RawDF) (k : Cell) :
    getCol (modelRow np mto fl k) "Shortfall"
      = cellSub (tsCell np mto k) (Cell.num (demSum fl k)) := rfl

/-- Closed form of the model rows produced by `get_model` when both
profiles are non-empty: one row per demand gas day, carrying the demand
sum, the total-supply lookup (null when the day has no supply rows) and
the null-propagating shortfall. -/
theorem get_model_rows (np mto fl : RawDF) (hfl : hasCols fl flowsReqCols = true)
    (hs : (build_supply_profile np mto).rows ≠ [])
    (hd : (build_demand_profile fl).rows ≠ []) :
    (get_model np mto fl).2.rows
      = (groupKeys (demand_zone fl) "gasday").map (modelRow np mto fl) := by
  have hcond : ((build_supply_profile np mto).rows.isEmpty
      || (build_demand_profile fl).rows.isEmpty) = false := by
    simp [hs, hd]
  simp only [get_model, hcond, Bool.false_eq_true, if_false]
  rw [mergeLeft_total_supply_rows]
  rw [build_demand_profile_rows fl hfl]
  rw [List.map_map, List.map_map]
  apply List.map_congr_left
  intro k _
  rfl

/-- C1: with both profiles non-empty, the model table is demand-driven:
its gas-day column coincides with the demand profile's (one model row per
demand day, and those days are duplicate-free), every row's shortfall is
the null-propagating difference of its total supply and demand cells, a
day with no matching supply rows gets null total supply and null
shortfall, and a day with supply rows gets the per-day sum of available
capacity. -/
theorem c1_get_model_demand_driven (np mto fl : RawDF)
    (hs : (build_supply_profile np mto).rows ≠ [])
    (hd : (build_demand_profile fl).rows ≠ []) :
    ((get_model np mto fl).2.rows.map (fun r => getCol r "GasDay")
        = (build_demand_profile fl).rows.map (fun r => getCol r "GasDay"))
    ∧ ((get_model np mto fl).2.rows.map (fun r => getCol r "GasDay")).Nodup
    ∧ ∀ r, r ∈ (get_model np mto fl).2.rows →
        getCol r "Shortfall" = cellSub (getCol r "TJ_Available") (getCol r "TJ_Demand")
        ∧ ((∀ s, s ∈ (build_supply_profile np mto).rows →
              getCol s "GasDay" ≠ getCol r "GasDay") →
            getCol r "TJ_Available" = Cell.null ∧ getCol r "Shortfall" = Cell.null)
        ∧ ((∃ s, s ∈ (build_supply_profile np mto).rows ∧
              getCol s "GasDay" = getCol r "GasDay") →
            getCol r "TJ_Available" = Cell.num (sumCol
              ((build_supply_profile np mto).rows.filter
                (fun s => getCol s "GasDay" == getCol r "GasDay")) "TJ_Available")) := by
  by_cases hfl : hasCols fl flowsReqCols
  case neg =>
    exfalso
    apply hd
    simp [build_demand_profile, hfl]
  case pos =>
    have hrows := get_model_rows np mto fl hfl hs hd
    have hdem := build_demand_profile_rows fl hfl
    have hdayM : (get_model np mto fl).2.rows.map (fun r => getCol r "GasDay")
        = groupKeys (demand_zone fl) "gasday" := by
      rw [hrows, List.map_map]
      exact (List.map_congr_left fun k _ => modelRow_day np mto fl k).trans
        (List.map_id _)
    have hdayD : (build_demand_profile fl).rows.map (fun r => getCol r "GasDay")
        = groupKeys (demand_zone fl) "gasday" := by
      rw [hdem, List.map_map]
      exact (List.map_congr_left fun k _ => rfl).trans (List.map_id _)
    refine ⟨hdayM.trans hdayD.symm, ?_, ?_⟩
    · rw [hdayM]
      exact groupKeys_nodup _ _
    · intro r hr
      rw [hrows] at hr
      obtain ⟨k, hk, hrk⟩ := List.mem_map.mp hr
      subst hrk
      have hkne : k ≠ Cell.null := groupKeys_ne_null _ _ _ hk
      refine ⟨?_, ?_, ?_⟩
      · rw [modelRow_short, modelRow_avail, modelRow_demand]
      · intro hnos
        have hnotin : k ∉ groupKeys (build_supply_profile np mto).rows "GasDay" := by
          intro hin
          obtain ⟨⟨s, hs2, hsk⟩, _⟩ := (mem_groupKeys _ _ _).mp hin
          exact hnos s hs2 (hsk.trans (modelRow_day np mto fl k).symm)
        constructor
        · rw [modelRow_avail]
          simp only [tsCell, if_neg hnotin]
        · rw [modelRow_short]
          simp only [tsCell, if_neg hnotin]
          rfl
      · rintro ⟨s, hs2, hsk⟩
        have hin : k ∈ groupKeys (build_supply_profile np mto).rows "GasDay" :=
          (mem_groupKeys _ _ _).mpr
            ⟨⟨s, hs2, hsk.trans (modelRow_day np mto fl k)⟩, hkne⟩
        rw [modelRow_avail, modelRow_day np mto fl k]
        simp only [tsCell, if_pos hin]

/-- C1 witness: the demand-driven day column at a concrete non-degenerate
input. -/
theorem c1_get_model_demand_driven_witness :
    (get_model (npSingle 50) mtoF40 flOne).2.rows.map (fun r => getCol r "GasDay")
      = (build_demand_profile flOne).rows.map (fun r => getCol r "GasDay") :=
  (c1_get_model_demand_driven (npSingle 50) mtoF40 flOne (by decide) (by decide)).1

end Wagas
